import Mathlib

/-!
# User controller handlers and query adapters

A shallow embedding of `backend/app/api/v1/v1_ctrl_user.go` and
`backend/internal/web/adapters/query.go`.

Each handler is a state transformer on a `Trace`: the ordered record of every
effect the handler performs on its collaborators (body decoding, context
lookups, service calls, log calls and writes to the response writer).  The
collaborators themselves live in other packages; what they return is supplied
by the controller value and by a `Server` record, exactly as the Go code
receives it: a Go `(value, error)` pair is a Lean pair `value × Option E`.
-/

namespace Homebox

/-! ## Data model -/

/-- A `uuid.UUID` is sixteen bytes, kept as the 128-bit number they spell. -/
abbrev UUID := Fin (2 ^ 128)

/-- The all-zero identifier `uuid.Nil`. -/
def uuid.Nil : UUID := ⟨0, by decide⟩

/-- `http.StatusOK`. -/
def http.StatusOK : Nat := 200

/-- `http.StatusNoContent`. -/
def http.StatusNoContent : Nat := 204

/-- `http.StatusBadRequest`. -/
def http.StatusBadRequest : Nat := 400

/-- `http.StatusInternalServerError`. -/
def http.StatusInternalServerError : Nat := 500

/-- The user record handed back by the user service.  The handlers read only
its `ID`; every other field is carried along as one value of type `F`. -/
structure User (F : Type) where
  ID : UUID
  fields : F
  deriving DecidableEq, Repr

/-- Modelled from the spec: `server.Result`, the value built by `server.Wrap`
(package `pkgs/server`), is the standard envelope that carries its payload
under the `item` key. -/
structure server.Result (α : Type) where
  item : α
  deriving DecidableEq, Repr

/-- Modelled from the spec: `server.Wrap` puts a payload into the standard
envelope. -/
def server.Wrap {α : Type} (data : α) : server.Result α := ⟨data⟩

/-- The values the handlers pass as the untyped `data` argument of
`server.Respond`. -/
inductive Body (Upd F : Type) where
  /-- The Go `nil`. -/
  | null
  /-- The envelope `server.Wrap(usr)`. -/
  | user (res : server.Result (User F))
  /-- The envelope `server.Wrap(newData)`. -/
  | update (res : server.Result Upd)
  deriving DecidableEq, Repr

/-- The first argument of `ctrl.log.Error`. -/
inductive LogErr (E : Type) where
  /-- An error value received from a collaborator. -/
  | err (e : E)
  /-- The fresh error `errors.New(msg)`. -/
  | new (msg : String)
  deriving DecidableEq, Repr

/-- The second argument of `ctrl.log.Error`: `nil` or a `logger.Props` map. -/
abbrev Props := Option (List (String × String))

/-- One effect of a controller handler on the world outside it. -/
inductive Event (Ctx E Reg Upd F Tok : Type) where
  /-- `server.Decode(r, &regData)`. -/
  | decodeRegistration
  /-- `server.Decode(r, &updateData)`. -/
  | decodeUpdate
  /-- `services.UseTokenCtx(ctx)`. -/
  | useTokenCtx (ctx : Ctx)
  /-- `services.UseUserCtx(ctx)`. -/
  | useUserCtx (ctx : Ctx)
  /-- `ctrl.svc.User.RegisterUser(ctx, data)`. -/
  | registerUser (ctx : Ctx) (data : Reg)
  /-- `ctrl.svc.User.GetSelf(ctx, token)`. -/
  | getSelf (ctx : Ctx) (token : Tok)
  /-- `ctrl.svc.User.UpdateSelf(ctx, id, data)`. -/
  | updateSelf (ctx : Ctx) (id : UUID) (data : Upd)
  /-- `ctrl.log.Error(err, props)`. -/
  | logError (err : LogErr E) (props : Props)
  /-- `server.Respond(w, status, data)`. -/
  | respond (status : Nat) (data : Body Upd F)
  /-- `server.RespondError(w, status, err)`. -/
  | respondError (status : Nat) (err : E)
  /-- `server.RespondServerError(w)`. -/
  | respondServerError
  deriving DecidableEq, Repr

/-- The effects performed so far, oldest first. -/
abbrev Trace (Ctx E Reg Upd F Tok : Type) := List (Event Ctx E Reg Upd F Tok)

/-- The method set of the user service that the handlers call. -/
structure UserService (Ctx E Reg Upd F Tok : Type) where
  RegisterUser : Ctx → Reg → User F × Option E
  GetSelf : Ctx → Tok → User F × Option E
  UpdateSelf : Ctx → UUID → Upd → Upd × Option E

/-- The service bundle held by the controller (`ctrl.svc`). -/
structure AllServices (Ctx E Reg Upd F Tok : Type) where
  User : UserService Ctx E Reg Upd F Tok

/-- The package-level helpers the handlers call on the request: the request
context, `server.Decode` at the two payload types (the value left in the
destination and the error), and the two context lookups of `services`. -/
structure Server (R Ctx E Reg Upd F Tok : Type) where
  Context : R → Ctx
  DecodeRegistration : R → Reg × Option E
  DecodeUpdate : R → Upd × Option E
  UseTokenCtx : Ctx → Tok
  UseUserCtx : Ctx → User F

/-- The controller: its services and the helpers of its environment. -/
structure V1Controller (R Ctx E Reg Upd F Tok : Type) where
  svc : AllServices Ctx E Reg Upd F Tok
  server : Server R Ctx E Reg Upd F Tok

section Handlers

variable {R Ctx E Reg Upd F Tok : Type}

/-- Perform one effect: append it to the trace. -/
def emit (e : Event Ctx E Reg Upd F Tok) (s : Trace Ctx E Reg Upd F Tok) :
    Trace Ctx E Reg Upd F Tok :=
  s ++ [e]

/-- The handler returned by `HandleUserRegistration`. -/
def V1Controller.HandleUserRegistration (ctrl : V1Controller R Ctx E Reg Upd F Tok)
    (r : R) (s : Trace Ctx E Reg Upd F Tok) : Trace Ctx E Reg Upd F Tok :=
  let s := emit .decodeRegistration s
  match ctrl.server.DecodeRegistration r with
  | (_, some err) =>
    let s := emit (.logError (.err err) none) s
    emit (.respondError http.StatusInternalServerError err) s
  | (regData, none) =>
    let s := emit (.registerUser (ctrl.server.Context r) regData) s
    match ctrl.svc.User.RegisterUser (ctrl.server.Context r) regData with
    | (_, some err) =>
      let s := emit (.logError (.err err) none) s
      emit (.respondError http.StatusInternalServerError err) s
    | (_, none) =>
      emit (.respond http.StatusNoContent .null) s

/-- The handler returned by `HandleUserSelf`. -/
def V1Controller.HandleUserSelf (ctrl : V1Controller R Ctx E Reg Upd F Tok)
    (r : R) (s : Trace Ctx E Reg Upd F Tok) : Trace Ctx E Reg Upd F Tok :=
  let s := emit (.useTokenCtx (ctrl.server.Context r)) s
  let token := ctrl.server.UseTokenCtx (ctrl.server.Context r)
  let s := emit (.getSelf (ctrl.server.Context r) token) s
  let (usr, err) := ctrl.svc.User.GetSelf (ctrl.server.Context r) token
  if usr.ID == uuid.Nil || err.isSome then
    let s := emit (.logError (.new "no user within request context") none) s
    emit .respondServerError s
  else
    emit (.respond http.StatusOK (.user (server.Wrap usr))) s

/-- The handler returned by `HandleUserUpdate`. -/
def V1Controller.HandleUserUpdate (ctrl : V1Controller R Ctx E Reg Upd F Tok)
    (r : R) (s : Trace Ctx E Reg Upd F Tok) : Trace Ctx E Reg Upd F Tok :=
  let s := emit .decodeUpdate s
  match ctrl.server.DecodeUpdate r with
  | (_, some err) =>
    let s := emit (.logError (.err err)
      (some [("scope", "user"), ("details", "failed to decode user update data")])) s
    emit (.respondError http.StatusBadRequest err) s
  | (updateData, none) =>
    let s := emit (.useUserCtx (ctrl.server.Context r)) s
    let actor := ctrl.server.UseUserCtx (ctrl.server.Context r)
    let s := emit (.updateSelf (ctrl.server.Context r) actor.ID updateData) s
    match ctrl.svc.User.UpdateSelf (ctrl.server.Context r) actor.ID updateData with
    | (_, some err) =>
      let s := emit (.logError (.err err)
        (some [("scope", "user"), ("details", "failed to update user")])) s
      emit (.respondError http.StatusInternalServerError err) s
    | (newData, none) =>
      emit (.respond http.StatusOK (.update (server.Wrap newData))) s

/-- The handler returned by `HandleUserUpdatePassword`: its body is empty. -/
def V1Controller.HandleUserUpdatePassword (_ctrl : V1Controller R Ctx E Reg Upd F Tok)
    (_r : R) (s : Trace Ctx E Reg Upd F Tok) : Trace Ctx E Reg Upd F Tok :=
  s

/-! ## Observations on a trace -/

/-- Whether an effect is a write to the response writer. -/
def Event.isResponse : Event Ctx E Reg Upd F Tok → Bool
  | .respond _ _ => true
  | .respondError _ _ => true
  | .respondServerError => true
  | _ => false

/-- Whether an effect is a call of a user-service method. -/
def Event.isServiceCall : Event Ctx E Reg Upd F Tok → Bool
  | .registerUser _ _ => true
  | .getSelf _ _ => true
  | .updateSelf _ _ _ => true
  | _ => false

/-- Whether an effect is a failure response. -/
def Event.isFailure : Event Ctx E Reg Upd F Tok → Bool
  | .respondError _ _ => true
  | .respondServerError => true
  | _ => false

/-- Whether an effect is a success response. -/
def Event.isSuccess : Event Ctx E Reg Upd F Tok → Bool
  | .respond _ _ => true
  | _ => false

/-- The writes to the response writer, in order. -/
def responses (s : Trace Ctx E Reg Upd F Tok) : Trace Ctx E Reg Upd F Tok :=
  s.filter Event.isResponse

/-- The user-service calls, in order. -/
def serviceCalls (s : Trace Ctx E Reg Upd F Tok) : Trace Ctx E Reg Upd F Tok :=
  s.filter Event.isServiceCall

/-- Whether an effect is the actor lookup `services.UseUserCtx`. -/
def Event.isActorLookup : Event Ctx E Reg Upd F Tok → Bool
  | .useUserCtx _ => true
  | _ => false

/-- The actor lookups, in order. -/
def actorLookups (s : Trace Ctx E Reg Upd F Tok) : Trace Ctx E Reg Upd F Tok :=
  s.filter Event.isActorLookup

/-- The shape shared by every run of the three handlers: the effects `added`
hold exactly one response and at most one service call, and no failure
response in them is followed by a success response. -/
def SingleShot (added : Trace Ctx E Reg Upd F Tok) : Prop :=
  (responses added).length = 1
    ∧ (serviceCalls added).length ≤ 1
    ∧ added.Pairwise (fun a b => ¬ (a.isFailure = true ∧ b.isSuccess = true))

end Handlers

/-! ## Query adapters -/

namespace adapters

/-- One effect of an adapter-built handler. -/
inductive Event (Ctx T Y : Type) where
  /-- `routeUUID(r, param)`. -/
  | routeUUID (param : String)
  /-- `decodeQuery[T](r)`. -/
  | decodeQuery
  /-- `f(ctx, q)` for an `AdapterFunc`. -/
  | call (ctx : Ctx) (q : T)
  /-- `f(ctx, ID, q)` for an `IDFunc`. -/
  | callID (ctx : Ctx) (ID : UUID) (q : T)
  /-- `server.Respond(w, ok, res)`. -/
  | respond (status : Int) (res : Y)
  deriving DecidableEq, Repr

/-- The helpers an adapter-built handler calls: the request context, the two
package-local helpers `routeUUID` and `decodeQuery`, and the error returned by
`server.Respond`. -/
structure Server (R Ctx E T Y : Type) where
  Context : R → Ctx
  routeUUID : R → String → UUID × Option E
  decodeQuery : R → T × Option E
  Respond : Int → Y → Option E

/-- An `AdapterFunc[T, Y]`. -/
abbrev AdapterFunc (Ctx E T Y : Type) := Ctx → T → Y × Option E

/-- An `IDFunc[T, Y]`. -/
abbrev IDFunc (Ctx E T Y : Type) := Ctx → UUID → T → Y × Option E

/-- A `server.HandlerFunc`: from the request and the effects so far to the
returned error and the effects afterwards. -/
abbrev HandlerFunc (R Ctx E T Y : Type) := R → List (Event Ctx T Y) → Option E × List (Event Ctx T Y)

variable {R Ctx E T Y : Type}

/-- The handler built by `Query(f, ok)`. -/
def Query (srv : Server R Ctx E T Y) (f : AdapterFunc Ctx E T Y) (ok : Int) :
    HandlerFunc R Ctx E T Y := fun r s =>
  let s := s ++ [.decodeQuery]
  match srv.decodeQuery r with
  | (_, some err) => (some err, s)
  | (q, none) =>
    let s := s ++ [.call (srv.Context r) q]
    match f (srv.Context r) q with
    | (_, some err) => (some err, s)
    | (res, none) => (srv.Respond ok res, s ++ [.respond ok res])

/-- The handler built by `QueryID(param, f, ok)`. -/
def QueryID (srv : Server R Ctx E T Y) (param : String) (f : IDFunc Ctx E T Y) (ok : Int) :
    HandlerFunc R Ctx E T Y := fun r s =>
  let s := s ++ [.routeUUID param]
  match srv.routeUUID r param with
  | (_, some err) => (some err, s)
  | (ID, none) =>
    let s := s ++ [.decodeQuery]
    match srv.decodeQuery r with
    | (_, some err) => (some err, s)
    | (q, none) =>
      let s := s ++ [.callID (srv.Context r) ID q]
      match f (srv.Context r) ID q with
      | (_, some err) => (some err, s)
      | (res, none) => (srv.Respond ok res, s ++ [.respond ok res])

end adapters

/-! ## A concrete controller

Requests and contexts are numbered; errors, payloads, tokens and the
remaining user fields are strings.  Request `0` has a body that does not
decode; the service fails in context `2`. -/

/-- A user service: registration and update fail in context `2`; the
self lookup resolves a user in context `1`, resolves the nil user in
context `2`, and fails otherwise. -/
def exampleService : UserService Nat String String String String String where
  RegisterUser := fun ctx data =>
    if ctx = 2 then (⟨uuid.Nil, ""⟩, some "email taken") else (⟨⟨7, by decide⟩, data⟩, none)
  GetSelf := fun ctx token =>
    if ctx = 1 then (⟨⟨7, by decide⟩, token⟩, none)
    else if ctx = 2 then (⟨uuid.Nil, ""⟩, none)
    else (⟨⟨7, by decide⟩, token⟩, some "lookup failed")
  UpdateSelf := fun ctx _id data =>
    if ctx = 2 then ("", some "update failed") else (data ++ "!", none)

/-- The helpers of the concrete controller. -/
def exampleServer : Server Nat Nat String String String String String where
  Context := fun r => r
  DecodeRegistration := fun r => if r = 0 then ("", some "unexpected EOF") else ("alice", none)
  DecodeUpdate := fun r => if r = 0 then ("", some "unexpected EOF") else ("bob", none)
  UseTokenCtx := fun _ => "token"
  UseUserCtx := fun _ => ⟨⟨5, by decide⟩, "actor"⟩

/-- The concrete controller. -/
def exampleCtrl : V1Controller Nat Nat String String String String String where
  svc := ⟨exampleService⟩
  server := exampleServer

/-- The helpers of a concrete adapter: the path parameter of request `0` is
not a UUID, the query string of request `1` does not decode. -/
def exampleAdapterServer : adapters.Server Nat Nat String String String where
  Context := fun r => r
  routeUUID := fun r _ => if r = 0 then (uuid.Nil, some "invalid UUID length") else (⟨9, by decide⟩, none)
  decodeQuery := fun r => if r = 1 then ("", some "bad query") else ("q", none)
  Respond := fun _ _ => none

/-- A business function that fails in context `2`. -/
def exampleAdapterFunc : adapters.AdapterFunc Nat String String String :=
  fun ctx q => if ctx = 2 then ("", some "not found") else (q ++ "-result", none)

/-- A business function with an identifier that fails in context `2`. -/
def exampleIDFunc : adapters.IDFunc Nat String String String :=
  fun ctx _ q => if ctx = 2 then ("", some "not found") else (q ++ "-result", none)

/-! ## Registration -/

section Theorems

variable {R Ctx E Reg Upd F Tok : Type}

/-- C1: when the body decodes to `d` and `RegisterUser` returns `(u, nil)`, the
registration handler decodes, calls the service, and writes exactly one
response, `Respond(w, 204, nil)`: status 204, a nil body, and no trace of the
returned user `u`. -/
theorem HandleUserRegistration_success (ctrl : V1Controller R Ctx E Reg Upd F Tok) (r : R)
    (s : Trace Ctx E Reg Upd F Tok) (d : Reg) (u : User F)
    (hdec : ctrl.server.DecodeRegistration r = (d, none))
    (hsvc : ctrl.svc.User.RegisterUser (ctrl.server.Context r) d = (u, none)) :
    ctrl.HandleUserRegistration r s
        = s ++ [.decodeRegistration, .registerUser (ctrl.server.Context r) d,
                .respond 204 .null]
      ∧ responses (ctrl.HandleUserRegistration r s) = responses s ++ [.respond 204 .null] := by
  have h : ctrl.HandleUserRegistration r s
      = s ++ [.decodeRegistration, .registerUser (ctrl.server.Context r) d,
              .respond 204 .null] := by
    simp [V1Controller.HandleUserRegistration, hdec, hsvc, emit, http.StatusNoContent]
  refine ⟨h, ?_⟩
  rw [h]
  simp [responses, List.filter_append, List.filter_cons, Event.isResponse]

/-- C1 at request `1` of the concrete controller. -/
theorem HandleUserRegistration_success_witness :
    exampleCtrl.server.DecodeRegistration 1 = ("alice", none)
      ∧ exampleCtrl.svc.User.RegisterUser (exampleCtrl.server.Context 1) "alice"
        = (⟨⟨7, by decide⟩, "alice"⟩, none)
      ∧ exampleCtrl.HandleUserRegistration 1 []
        = [] ++ [.decodeRegistration, .registerUser (exampleCtrl.server.Context 1) "alice",
                .respond 204 .null]
      ∧ responses (exampleCtrl.HandleUserRegistration 1 [])
        = responses [] ++ [.respond 204 .null] :=
  ⟨rfl, rfl,
    HandleUserRegistration_success exampleCtrl 1 [] "alice" ⟨⟨7, by decide⟩, "alice"⟩ rfl rfl⟩

/-- C2: at request `1` of the concrete controller the body decodes and
`RegisterUser` returns user `7` without error; the handler answers
`Respond(w, 204, nil)` and never the documented `200` with the created user in
the envelope. -/
theorem HandleUserRegistration_godoc_divergence :
    exampleCtrl.server.DecodeRegistration 1 = ("alice", none)
      ∧ exampleCtrl.svc.User.RegisterUser 1 "alice" = (⟨⟨7, by decide⟩, "alice"⟩, none)
      ∧ responses (exampleCtrl.HandleUserRegistration 1 []) = [.respond 204 .null]
      ∧ Event.respond 200 (.user (server.Wrap ⟨⟨7, by decide⟩, "alice"⟩))
          ∉ exampleCtrl.HandleUserRegistration 1 [] := by
  decide

/-- C3: when decoding the body fails with `err`, the registration handler logs
`err`, writes exactly one response, `RespondError(w, 500, err)`, and makes no
service call: `RegisterUser` is not invoked. -/
theorem HandleUserRegistration_decode_failure (ctrl : V1Controller R Ctx E Reg Upd F Tok)
    (r : R) (s : Trace Ctx E Reg Upd F Tok) (d : Reg) (err : E)
    (hdec : ctrl.server.DecodeRegistration r = (d, some err)) :
    ctrl.HandleUserRegistration r s
        = s ++ [.decodeRegistration, .logError (.err err) none, .respondError 500 err]
      ∧ responses (ctrl.HandleUserRegistration r s) = responses s ++ [.respondError 500 err]
      ∧ serviceCalls (ctrl.HandleUserRegistration r s) = serviceCalls s := by
  have h : ctrl.HandleUserRegistration r s
      = s ++ [.decodeRegistration, .logError (.err err) none, .respondError 500 err] := by
    simp [V1Controller.HandleUserRegistration, hdec, emit, http.StatusInternalServerError]
  refine ⟨h, ?_, ?_⟩
  · rw [h]
    simp [responses, List.filter_append, List.filter_cons, Event.isResponse]
  · rw [h]
    simp [serviceCalls, List.filter_append, List.filter_cons, Event.isServiceCall]

/-- C3 at request `0` of the concrete controller. -/
theorem HandleUserRegistration_decode_failure_witness :
    exampleCtrl.server.DecodeRegistration 0 = ("", some "unexpected EOF")
      ∧ exampleCtrl.HandleUserRegistration 0 []
        = [] ++ [.decodeRegistration, .logError (.err "unexpected EOF") none,
                 .respondError 500 "unexpected EOF"]
      ∧ responses (exampleCtrl.HandleUserRegistration 0 [])
        = responses [] ++ [.respondError 500 "unexpected EOF"]
      ∧ serviceCalls (exampleCtrl.HandleUserRegistration 0 []) = serviceCalls [] :=
  ⟨rfl, HandleUserRegistration_decode_failure exampleCtrl 0 [] "" "unexpected EOF" rfl⟩

/-! ## Self -/

/-- C4: with `(usr, err)` the result of `GetSelf` on the token taken from the
request context, the self handler ends with the single response
`Respond(w, 200, Wrap(usr))` exactly when `err` is nil and `usr.ID` is not the
nil UUID; in every other case it ends with the single generic
`RespondServerError(w)`, which carries no user. -/
theorem HandleUserSelf_spec (ctrl : V1Controller R Ctx E Reg Upd F Tok) (r : R)
    (s : Trace Ctx E Reg Upd F Tok) (usr : User F) (err : Option E)
    (hres : ctrl.svc.User.GetSelf (ctrl.server.Context r)
        (ctrl.server.UseTokenCtx (ctrl.server.Context r)) = (usr, err)) :
    ((err = none ∧ usr.ID ≠ uuid.Nil) ↔
        ctrl.HandleUserSelf r s
          = s ++ [.useTokenCtx (ctrl.server.Context r),
                  .getSelf (ctrl.server.Context r)
                    (ctrl.server.UseTokenCtx (ctrl.server.Context r)),
                  .respond 200 (.user (server.Wrap usr))])
      ∧ ((err = none ∧ usr.ID ≠ uuid.Nil) ↔
        responses (ctrl.HandleUserSelf r s)
          = responses s ++ [.respond 200 (.user (server.Wrap usr))])
      ∧ (¬ (err = none ∧ usr.ID ≠ uuid.Nil) ↔
        ctrl.HandleUserSelf r s
          = s ++ [.useTokenCtx (ctrl.server.Context r),
                  .getSelf (ctrl.server.Context r)
                    (ctrl.server.UseTokenCtx (ctrl.server.Context r)),
                  .logError (.new "no user within request context") none,
                  .respondServerError])
      ∧ (¬ (err = none ∧ usr.ID ≠ uuid.Nil) ↔
        responses (ctrl.HandleUserSelf r s) = responses s ++ [.respondServerError]) := by
  by_cases hc : err = none ∧ usr.ID ≠ uuid.Nil
  · obtain ⟨he, hid⟩ := hc
    have h : ctrl.HandleUserSelf r s
        = s ++ [.useTokenCtx (ctrl.server.Context r),
                .getSelf (ctrl.server.Context r)
                  (ctrl.server.UseTokenCtx (ctrl.server.Context r)),
                .respond 200 (.user (server.Wrap usr))] := by
      unfold V1Controller.HandleUserSelf
      simp only [hres]
      simp [he, hid, emit, http.StatusOK]
    have hr : responses (ctrl.HandleUserSelf r s)
        = responses s ++ [.respond 200 (.user (server.Wrap usr))] := by
      rw [h]
      simp [responses, List.filter_append, List.filter_cons, Event.isResponse]
    refine ⟨?_, ?_, ?_, ?_⟩
    · simp [he, hid, h]
    · simp [he, hid, hr]
    · simp [he, hid, h]
    · simp [he, hid, hr]
  · have h : ctrl.HandleUserSelf r s
        = s ++ [.useTokenCtx (ctrl.server.Context r),
                .getSelf (ctrl.server.Context r)
                  (ctrl.server.UseTokenCtx (ctrl.server.Context r)),
                .logError (.new "no user within request context") none,
                .respondServerError] := by
      unfold V1Controller.HandleUserSelf
      simp only [hres]
      have hb : (usr.ID == uuid.Nil || err.isSome) = true := by
        by_cases hid : usr.ID = uuid.Nil
        · simp [hid]
        · cases he : err with
          | none => exact absurd ⟨he, hid⟩ hc
          | some e => simp
      simp [hb, emit]
    have hr : responses (ctrl.HandleUserSelf r s) = responses s ++ [.respondServerError] := by
      rw [h]
      simp [responses, List.filter_append, List.filter_cons, Event.isResponse]
    refine ⟨?_, ?_, ?_, ?_⟩
    · simp [hc, h]
    · simp [hc, hr]
    · simp [hc, h]
    · simp [hc, hr]

/-- C4 at request `3` of the concrete controller, where `GetSelf` returns a
user with a non-nil ID together with an error. -/
theorem HandleUserSelf_spec_witness :
    exampleCtrl.svc.User.GetSelf (exampleCtrl.server.Context 3)
        (exampleCtrl.server.UseTokenCtx (exampleCtrl.server.Context 3))
        = (⟨⟨7, by decide⟩, "token"⟩, some "lookup failed")
      ∧ responses (exampleCtrl.HandleUserSelf 3 []) = responses [] ++ [.respondServerError] :=
  ⟨rfl, (HandleUserSelf_spec exampleCtrl 3 [] ⟨⟨7, by decide⟩, "token"⟩ (some "lookup failed")
    rfl).2.2.2.mp (by decide)⟩

/-! ## Update -/

/-- C5: when decoding the body fails with `err`, the update handler logs `err`
and writes exactly one response, `RespondError(w, 400, err)`; it performs no
actor lookup and no service call, so `UpdateSelf` is not invoked. -/
theorem HandleUserUpdate_decode_failure (ctrl : V1Controller R Ctx E Reg Upd F Tok) (r : R)
    (s : Trace Ctx E Reg Upd F Tok) (d : Upd) (err : E)
    (hdec : ctrl.server.DecodeUpdate r = (d, some err)) :
    ctrl.HandleUserUpdate r s
        = s ++ [.decodeUpdate,
                .logError (.err err)
                  (some [("scope", "user"), ("details", "failed to decode user update data")]),
                .respondError 400 err]
      ∧ responses (ctrl.HandleUserUpdate r s) = responses s ++ [.respondError 400 err]
      ∧ actorLookups (ctrl.HandleUserUpdate r s) = actorLookups s
      ∧ serviceCalls (ctrl.HandleUserUpdate r s) = serviceCalls s := by
  have h : ctrl.HandleUserUpdate r s
      = s ++ [.decodeUpdate,
              .logError (.err err)
                (some [("scope", "user"), ("details", "failed to decode user update data")]),
              .respondError 400 err] := by
    simp [V1Controller.HandleUserUpdate, hdec, emit, http.StatusBadRequest]
  refine ⟨h, ?_, ?_, ?_⟩
  · rw [h]
    simp [responses, List.filter_append, List.filter_cons, Event.isResponse]
  · rw [h]
    simp [actorLookups, List.filter_append, List.filter_cons, Event.isActorLookup]
  · rw [h]
    simp [serviceCalls, List.filter_append, List.filter_cons, Event.isServiceCall]

/-- C5 at request `0` of the concrete controller. -/
theorem HandleUserUpdate_decode_failure_witness :
    exampleCtrl.server.DecodeUpdate 0 = ("", some "unexpected EOF")
      ∧ responses (exampleCtrl.HandleUserUpdate 0 [])
        = responses [] ++ [.respondError 400 "unexpected EOF"]
      ∧ actorLookups (exampleCtrl.HandleUserUpdate 0 []) = actorLookups []
      ∧ serviceCalls (exampleCtrl.HandleUserUpdate 0 []) = serviceCalls [] :=
  ⟨rfl, (HandleUserUpdate_decode_failure exampleCtrl 0 [] "" "unexpected EOF" rfl).2⟩

/-- C6: when the body decodes to `d`, with `a` the actor taken from the request
context, the update handler makes exactly one service call,
`UpdateSelf(ctx, a.ID, d)`; if that call returns `(newData, nil)` the single
response is `Respond(w, 200, Wrap(newData))`, and if it returns an error `err`
the single response is `RespondError(w, 500, err)`. -/
theorem HandleUserUpdate_decoded (ctrl : V1Controller R Ctx E Reg Upd F Tok) (r : R)
    (s : Trace Ctx E Reg Upd F Tok) (d : Upd) (a : User F)
    (hdec : ctrl.server.DecodeUpdate r = (d, none))
    (hactor : ctrl.server.UseUserCtx (ctrl.server.Context r) = a) :
    serviceCalls (ctrl.HandleUserUpdate r s)
        = serviceCalls s ++ [.updateSelf (ctrl.server.Context r) a.ID d]
      ∧ (∀ newData, ctrl.svc.User.UpdateSelf (ctrl.server.Context r) a.ID d = (newData, none) →
          responses (ctrl.HandleUserUpdate r s)
            = responses s ++ [.respond 200 (.update (server.Wrap newData))])
      ∧ (∀ newData err,
          ctrl.svc.User.UpdateSelf (ctrl.server.Context r) a.ID d = (newData, some err) →
          responses (ctrl.HandleUserUpdate r s) = responses s ++ [.respondError 500 err]) := by
  subst hactor
  refine ⟨?_, ?_, ?_⟩
  · rcases hsvc : ctrl.svc.User.UpdateSelf (ctrl.server.Context r)
        (ctrl.server.UseUserCtx (ctrl.server.Context r)).ID d with ⟨newData, _ | err⟩
    · simp [V1Controller.HandleUserUpdate, hdec, hsvc, emit, serviceCalls, List.filter_append,
        List.filter_cons, Event.isServiceCall]
    · simp [V1Controller.HandleUserUpdate, hdec, hsvc, emit, serviceCalls, List.filter_append,
        List.filter_cons, Event.isServiceCall]
  · intro newData hsvc
    simp [V1Controller.HandleUserUpdate, hdec, hsvc, emit, responses, List.filter_append,
      List.filter_cons, Event.isResponse, http.StatusOK]
  · intro newData err hsvc
    simp [V1Controller.HandleUserUpdate, hdec, hsvc, emit, responses, List.filter_append,
      List.filter_cons, Event.isResponse, http.StatusInternalServerError]

/-- C6 at request `1` of the concrete controller: the service is called once
with the actor's identifier `5` and the decoded payload, and its result is
echoed in the envelope. -/
theorem HandleUserUpdate_decoded_witness :
    exampleCtrl.server.DecodeUpdate 1 = ("bob", none)
      ∧ exampleCtrl.server.UseUserCtx (exampleCtrl.server.Context 1) = ⟨⟨5, by decide⟩, "actor"⟩
      ∧ serviceCalls (exampleCtrl.HandleUserUpdate 1 [])
          = serviceCalls [] ++ [.updateSelf 1 ⟨5, by decide⟩ "bob"]
      ∧ responses (exampleCtrl.HandleUserUpdate 1 [])
          = responses [] ++ [.respond 200 (.update (server.Wrap "bob!"))] :=
  ⟨rfl, rfl,
    (HandleUserUpdate_decoded exampleCtrl 1 [] "bob" ⟨⟨5, by decide⟩, "actor"⟩ rfl rfl).1,
    (HandleUserUpdate_decoded exampleCtrl 1 [] "bob" ⟨⟨5, by decide⟩, "actor"⟩ rfl rfl).2.1
      "bob!" (by decide)⟩

/-- C9: the update-password handler performs no effect at all: the trace, and
with it the response writer, the service and the log, is left as it was. -/
theorem HandleUserUpdatePassword_no_effect (ctrl : V1Controller R Ctx E Reg Upd F Tok) (r : R)
    (s : Trace Ctx E Reg Upd F Tok) :
    ctrl.HandleUserUpdatePassword r s = s
      ∧ responses (ctrl.HandleUserUpdatePassword r s) = responses s
      ∧ serviceCalls (ctrl.HandleUserUpdatePassword r s) = serviceCalls s := by
  simp [V1Controller.HandleUserUpdatePassword]

/-! ## One response per request -/

/-- C10: for every controller, request and earlier trace, and so for every
outcome of decoding and of the service call, each of the registration, self
and update handlers extends the trace by effects that hold exactly one
response and at most one service call, with no failure response followed by a
success response. -/
theorem handlers_single_shot (ctrl : V1Controller R Ctx E Reg Upd F Tok) (r : R)
    (s : Trace Ctx E Reg Upd F Tok) :
    (∃ added, ctrl.HandleUserRegistration r s = s ++ added ∧ SingleShot added)
      ∧ (∃ added, ctrl.HandleUserSelf r s = s ++ added ∧ SingleShot added)
      ∧ (∃ added, ctrl.HandleUserUpdate r s = s ++ added ∧ SingleShot added) := by
  refine ⟨?_, ?_, ?_⟩
  · rcases hdec : ctrl.server.DecodeRegistration r with ⟨d, _ | err⟩
    · rcases hsvc : ctrl.svc.User.RegisterUser (ctrl.server.Context r) d with ⟨u, _ | err⟩
      · refine ⟨[.decodeRegistration, .registerUser (ctrl.server.Context r) d,
          .respond 204 .null], ?_, ?_⟩
        · simp [V1Controller.HandleUserRegistration, hdec, hsvc, emit, http.StatusNoContent]
        · simp [SingleShot, responses, serviceCalls, Event.isResponse, Event.isServiceCall,
            Event.isFailure, Event.isSuccess]
      · refine ⟨[.decodeRegistration, .registerUser (ctrl.server.Context r) d,
          .logError (.err err) none, .respondError 500 err], ?_, ?_⟩
        · simp [V1Controller.HandleUserRegistration, hdec, hsvc, emit,
            http.StatusInternalServerError]
        · simp [SingleShot, responses, serviceCalls, Event.isResponse, Event.isServiceCall,
            Event.isFailure, Event.isSuccess]
    · refine ⟨[.decodeRegistration, .logError (.err err) none, .respondError 500 err], ?_, ?_⟩
      · simp [V1Controller.HandleUserRegistration, hdec, emit, http.StatusInternalServerError]
      · simp [SingleShot, responses, serviceCalls, Event.isResponse, Event.isServiceCall,
          Event.isFailure, Event.isSuccess]
  · rcases hres : ctrl.svc.User.GetSelf (ctrl.server.Context r)
        (ctrl.server.UseTokenCtx (ctrl.server.Context r)) with ⟨usr, err⟩
    by_cases hb : (usr.ID == uuid.Nil || err.isSome) = true
    · refine ⟨[.useTokenCtx (ctrl.server.Context r),
          .getSelf (ctrl.server.Context r) (ctrl.server.UseTokenCtx (ctrl.server.Context r)),
          .logError (.new "no user within request context") none, .respondServerError], ?_, ?_⟩
      · unfold V1Controller.HandleUserSelf
        simp only [hres]
        simp [hb, emit]
      · simp [SingleShot, responses, serviceCalls, Event.isResponse, Event.isServiceCall,
          Event.isFailure, Event.isSuccess]
    · refine ⟨[.useTokenCtx (ctrl.server.Context r),
          .getSelf (ctrl.server.Context r) (ctrl.server.UseTokenCtx (ctrl.server.Context r)),
          .respond 200 (.user (server.Wrap usr))], ?_, ?_⟩
      · unfold V1Controller.HandleUserSelf
        simp only [hres]
        simp [hb, emit, http.StatusOK]
      · simp [SingleShot, responses, serviceCalls, Event.isResponse, Event.isServiceCall,
          Event.isFailure, Event.isSuccess]
  · rcases hdec : ctrl.server.DecodeUpdate r with ⟨d, _ | err⟩
    · rcases hsvc : ctrl.svc.User.UpdateSelf (ctrl.server.Context r)
          (ctrl.server.UseUserCtx (ctrl.server.Context r)).ID d with ⟨newData, _ | err⟩
      · refine ⟨[.decodeUpdate, .useUserCtx (ctrl.server.Context r),
          .updateSelf (ctrl.server.Context r)
            (ctrl.server.UseUserCtx (ctrl.server.Context r)).ID d,
          .respond 200 (.update (server.Wrap newData))], ?_, ?_⟩
        · simp [V1Controller.HandleUserUpdate, hdec, hsvc, emit, http.StatusOK]
        · simp [SingleShot, responses, serviceCalls, Event.isResponse, Event.isServiceCall,
            Event.isFailure, Event.isSuccess]
      · refine ⟨[.decodeUpdate, .useUserCtx (ctrl.server.Context r),
          .updateSelf (ctrl.server.Context r)
            (ctrl.server.UseUserCtx (ctrl.server.Context r)).ID d,
          .logError (.err err) (some [("scope", "user"), ("details", "failed to update user")]),
          .respondError 500 err], ?_, ?_⟩
        · simp [V1Controller.HandleUserUpdate, hdec, hsvc, emit,
            http.StatusInternalServerError]
        · simp [SingleShot, responses, serviceCalls, Event.isResponse, Event.isServiceCall,
            Event.isFailure, Event.isSuccess]
    · refine ⟨[.decodeUpdate,
          .logError (.err err)
            (some [("scope", "user"), ("details", "failed to decode user update data")]),
          .respondError 400 err], ?_, ?_⟩
      · simp [V1Controller.HandleUserUpdate, hdec, emit, http.StatusBadRequest]
      · simp [SingleShot, responses, serviceCalls, Event.isResponse, Event.isServiceCall,
          Event.isFailure, Event.isSuccess]

end Theorems

/-! ## Query adapters -/

namespace adapters

variable {R Ctx E T Y : Type}

/-- C7: when `routeUUID(r, param)` fails with `err`, the handler built by
`QueryID(param, f, ok)` returns `err` itself and its only effect is the
`routeUUID` call: the query string is not decoded, `f` is not invoked and
nothing is written to the response writer. -/
theorem QueryID_parse_failure (srv : Server R Ctx E T Y) (param : String)
    (f : IDFunc Ctx E T Y) (ok : Int) (r : R) (s : List (Event Ctx T Y)) (ID : UUID) (err : E)
    (hparse : srv.routeUUID r param = (ID, some err)) :
    QueryID srv param f ok r s = (some err, s ++ [.routeUUID param]) := by
  simp [QueryID, hparse]

/-- C7 at request `0` of the concrete adapter. -/
theorem QueryID_parse_failure_witness :
    exampleAdapterServer.routeUUID 0 "id" = (uuid.Nil, some "invalid UUID length")
      ∧ QueryID exampleAdapterServer "id" exampleIDFunc 200 0 []
        = (some "invalid UUID length", [] ++ [.routeUUID "id"]) :=
  ⟨rfl, QueryID_parse_failure exampleAdapterServer "id" exampleIDFunc 200 0 [] uuid.Nil
    "invalid UUID length" rfl⟩

/-- C8: the handler built by `Query(f, ok)` decodes, invokes and responds,
propagating the first error.  If query decoding fails with `err` it returns
`err`, and neither calls `f` nor responds; otherwise, if `f(ctx, q)` fails with
`err` it returns `err` and does not respond; otherwise it responds with status
`ok` and body `res`, the result of `f`, and returns what `server.Respond`
returns. -/
theorem Query_spec (srv : Server R Ctx E T Y) (f : AdapterFunc Ctx E T Y) (ok : Int) (r : R)
    (s : List (Event Ctx T Y)) :
    (∀ q err, srv.decodeQuery r = (q, some err) →
        Query srv f ok r s = (some err, s ++ [.decodeQuery]))
      ∧ (∀ q res err, srv.decodeQuery r = (q, none) → f (srv.Context r) q = (res, some err) →
        Query srv f ok r s = (some err, s ++ [.decodeQuery, .call (srv.Context r) q]))
      ∧ (∀ q res, srv.decodeQuery r = (q, none) → f (srv.Context r) q = (res, none) →
        Query srv f ok r s
          = (srv.Respond ok res,
             s ++ [.decodeQuery, .call (srv.Context r) q, .respond ok res])) := by
  refine ⟨?_, ?_, ?_⟩
  · intro q err hdec
    simp [Query, hdec]
  · intro q res err hdec hf
    simp [Query, hdec, hf]
  · intro q res hdec hf
    simp [Query, hdec, hf]

/-- C8 at requests `1`, `2` and `3` of the concrete adapter: a decode failure,
a failure of `f`, and a success. -/
theorem Query_spec_witness :
    Query exampleAdapterServer exampleAdapterFunc 200 1 [] = (some "bad query", [.decodeQuery])
      ∧ Query exampleAdapterServer exampleAdapterFunc 200 2 []
        = (some "not found", [.decodeQuery, .call 2 "q"])
      ∧ Query exampleAdapterServer exampleAdapterFunc 200 3 []
        = (none, [.decodeQuery, .call 3 "q", .respond 200 "q-result"]) :=
  ⟨(Query_spec exampleAdapterServer exampleAdapterFunc 200 1 []).1 "" "bad query" rfl,
    (Query_spec exampleAdapterServer exampleAdapterFunc 200 2 []).2.1 "q" "" "not found" rfl rfl,
    (Query_spec exampleAdapterServer exampleAdapterFunc 200 3 []).2.2 "q" "q-result" rfl
      (by decide)⟩

end adapters

end Homebox
